import Mathlib

/-
Shallow embedding of src/Jacobian_Linearization.py: a water mixing tank
simulated once with the true nonlinear dynamics and once with a Jacobian
linearization around an equilibrium point.  Machine floats are modelled by
exact real arithmetic (ℝ); np.sqrt is modelled by Real.sqrt, which agrees
with it on nonnegative arguments.  Python's `for t in range(100)` loop with
`H.append` / `T.append` becomes structural recursion on the remaining fuel,
carrying the loop index t and the running state.
-/

/-- Loop body of `nonlinear_simulate` (source lines 50-58): at loop index t
with `fuel` iterations remaining and running state (h_t, T_T_t), sample the
controls, update the temperature first using the pre-step height, then the
height using the pre-step height under the square root, append both to the
trajectories, and recurse at t+1. -/
noncomputable def nonlinearLoop (q_C q_H : ℕ → ℝ) (T_C T_H A_o A_T C_D g : ℝ) :
    ℕ → ℕ → ℝ → ℝ → List ℝ × List ℝ
  | _, 0, _, _ => ([], [])
  | t, fuel + 1, h_t, T_T_t =>
    let q_C_t := q_C t
    let q_H_t := q_H t
    let T_T_t2 := T_T_t + (q_C_t * (T_C - T_T_t) + q_H_t * (T_H - T_T_t)) / (h_t * A_T)
    let h_t2 := h_t + (q_C_t + q_H_t - C_D * A_o * Real.sqrt (2 * g * h_t)) / A_T
    let rest := nonlinearLoop q_C q_H T_C T_H A_o A_T C_D g (t + 1) fuel h_t2 T_T_t2
    (h_t2 :: rest.1, T_T_t2 :: rest.2)

/-- `nonlinear_simulate` (source lines 45-60): run the nonlinear loop for 100
steps from (h0, T0), returning the height and temperature trajectories.
Default arguments of the source (T_C=10, T_H=90, A_o=0.05, A_T=3, C_D=0.7,
g=9.8) are passed explicitly at call sites. -/
noncomputable def nonlinear_simulate (q_C q_H : ℕ → ℝ) (h0 T0 T_C T_H A_o A_T C_D g : ℝ) :
    List ℝ × List ℝ :=
  nonlinearLoop q_C q_H T_C T_H A_o A_T C_D g 0 100 h0 T0

/-- Equilibrium cold-flow control computed inside `linear_simulate`
(source line 64). -/
noncomputable def q_C_e (h_e T_e T_C T_H A_o C_D g : ℝ) : ℝ :=
  (C_D * A_o * Real.sqrt (2 * g * h_e) * (T_H - T_e)) / (T_H - T_C)

/-- Equilibrium hot-flow control computed inside `linear_simulate`
(source line 65). -/
noncomputable def q_H_e (h_e T_e T_C T_H A_o C_D g : ℝ) : ℝ :=
  (C_D * A_o * Real.sqrt (2 * g * h_e) * (T_e - T_C)) / (T_H - T_C)

/-- State Jacobian matrix `A` computed inside `linear_simulate`
(source line 70), as a function of the equilibrium point and constants. -/
noncomputable def Amat (h_e T_e T_C T_H A_o A_T C_D g : ℝ) : Fin 2 → Fin 2 → ℝ :=
  ![![-g * C_D * A_o / (A_T * Real.sqrt (2 * g * h_e)), 0],
    ![-(q_C_e h_e T_e T_C T_H A_o C_D g * (T_C - T_e) +
        q_H_e h_e T_e T_C T_H A_o C_D g * (T_H - T_e)) / (h_e * h_e * A_T),
      -(q_C_e h_e T_e T_C T_H A_o C_D g + q_H_e h_e T_e T_C T_H A_o C_D g) / (h_e * A_T)]]

/-- Input Jacobian matrix `B` computed inside `linear_simulate`
(source line 71). -/
noncomputable def Bmat (h_e T_e T_C T_H A_T : ℝ) : Fin 2 → Fin 2 → ℝ :=
  ![![1 / A_T, 1 / A_T],
    ![(T_C - T_e) / (h_e * A_T), (T_H - T_e) / (h_e * A_T)]]

/-- Matrix-vector product `M @ v` for the 2x2 case, as numpy computes it. -/
def mulVec2 (M : Fin 2 → Fin 2 → ℝ) (v : Fin 2 → ℝ) : Fin 2 → ℝ :=
  ![M 0 0 * v 0 + M 0 1 * v 1, M 1 0 * v 0 + M 1 1 * v 1]

/-- Loop body of `linear_simulate` (source lines 84-104): at loop index t with
running delta state (delta_h_t, delta_T_t), sample the controls, form the
delta control, update `delta_x += A@delta_x + B@delta_u`, reconstruct the
absolute state by adding back the equilibrium, append it, and recurse. -/
noncomputable def linearLoop (q_C q_H : ℕ → ℝ) (h_e T_e q_C_ev q_H_ev : ℝ)
    (A B : Fin 2 → Fin 2 → ℝ) : ℕ → ℕ → ℝ → ℝ → List ℝ × List ℝ
  | _, 0, _, _ => ([], [])
  | t, fuel + 1, delta_h_t, delta_T_t =>
    let q_C_t := q_C t
    let q_H_t := q_H t
    let delta_q_C := q_C_t - q_C_ev
    let delta_q_H := q_H_t - q_H_ev
    let delta_x := ![delta_h_t, delta_T_t]
    let delta_u := ![delta_q_C, delta_q_H]
    let delta_x2 := fun i => delta_x i + (mulVec2 A delta_x i + mulVec2 B delta_u i)
    let h_t := h_e + delta_x2 0
    let T_T_t := T_e + delta_x2 1
    let rest := linearLoop q_C q_H h_e T_e q_C_ev q_H_ev A B (t + 1) fuel
      (delta_x2 0) (delta_x2 1)
    (h_t :: rest.1, T_T_t :: rest.2)

/-- `linear_simulate` (source lines 62-106): derive the equilibrium controls
and the Jacobian matrices once, then run the linear delta-state loop for 100
steps from delta_x = (h0 - h_e, T0 - T_e). -/
noncomputable def linear_simulate (q_C q_H : ℕ → ℝ) (h0 T0 h_e T_e T_C T_H A_o A_T C_D g : ℝ) :
    List ℝ × List ℝ :=
  linearLoop q_C q_H h_e T_e
    (q_C_e h_e T_e T_C T_H A_o C_D g) (q_H_e h_e T_e T_C T_H A_o C_D g)
    (Amat h_e T_e T_C T_H A_o A_T C_D g) (Bmat h_e T_e T_C T_H A_T)
    0 100 (h0 - h_e) (T0 - T_e)

/-- Piecewise cold-flow control of the worked scenario (source lines 108-112). -/
noncomputable def q_C (t : ℕ) : ℝ :=
  if t ≤ 25 then 0.022 else 0.043

/-- Piecewise hot-flow control of the worked scenario (source lines 114-118). -/
noncomputable def q_H (t : ℕ) : ℝ :=
  if t ≤ 60 then 0.14 else 0.105

/-- Constant cold-flow control for the equilibrium scenario (source lines 120-121). -/
noncomputable def q_C_eq (_ : ℕ) : ℝ := 0.029

/-- Constant hot-flow control for the equilibrium scenario (source lines 123-124). -/
noncomputable def q_H_eq (_ : ℕ) : ℝ := 0.126

/-- Helper: the nonlinear loop records exactly one height and one temperature
per remaining iteration. -/
theorem nonlinearLoop_length (q_Cf q_Hf : ℕ → ℝ) (T_C T_H A_o A_T C_D g : ℝ) :
    ∀ fuel t h T,
      (nonlinearLoop q_Cf q_Hf T_C T_H A_o A_T C_D g t fuel h T).1.length = fuel ∧
      (nonlinearLoop q_Cf q_Hf T_C T_H A_o A_T C_D g t fuel h T).2.length = fuel := by
  intro fuel
  induction fuel with
  | zero => intro t h T; simp [nonlinearLoop]
  | succ n ih =>
    intro t h T
    simp only [nonlinearLoop, List.length_cons]
    exact ⟨by rw [(ih (t + 1) _ _).1], by rw [(ih (t + 1) _ _).2]⟩

/-- Helper: the linear loop records exactly one height and one temperature per
remaining iteration. -/
theorem linearLoop_length (q_Cf q_Hf : ℕ → ℝ) (h_e T_e q_C_ev q_H_ev : ℝ)
    (A B : Fin 2 → Fin 2 → ℝ) :
    ∀ fuel t dh dT,
      (linearLoop q_Cf q_Hf h_e T_e q_C_ev q_H_ev A B t fuel dh dT).1.length = fuel ∧
      (linearLoop q_Cf q_Hf h_e T_e q_C_ev q_H_ev A B t fuel dh dT).2.length = fuel := by
  intro fuel
  induction fuel with
  | zero => intro t dh dT; simp [linearLoop]
  | succ n ih =>
    intro t dh dT
    simp only [linearLoop, List.length_cons]
    exact ⟨by rw [(ih (t + 1) _ _).1], by rw [(ih (t + 1) _ _).2]⟩

/-- Helper: if at state (h, T) every step's controls make both Euler increments
vanish, the nonlinear loop stays at (h, T) at every recorded step. -/
theorem nonlinearLoop_fixed (q_Cf q_Hf : ℕ → ℝ) (T_C T_H A_o A_T C_D g h T : ℝ)
    (hT : ∀ s, q_Cf s * (T_C - T) + q_Hf s * (T_H - T) = 0)
    (hh : ∀ s, q_Cf s + q_Hf s - C_D * A_o * Real.sqrt (2 * g * h) = 0) :
    ∀ fuel t, nonlinearLoop q_Cf q_Hf T_C T_H A_o A_T C_D g t fuel h T =
      (List.replicate fuel h, List.replicate fuel T) := by
  intro fuel
  induction fuel with
  | zero => intro t; simp [nonlinearLoop]
  | succ n ih =>
    intro t
    have e1 : T + (q_Cf t * (T_C - T) + q_Hf t * (T_H - T)) / (h * A_T) = T := by
      rw [hT t, zero_div, add_zero]
    have e2 : h + (q_Cf t + q_Hf t - C_D * A_o * Real.sqrt (2 * g * h)) / A_T = h := by
      rw [hh t, zero_div, add_zero]
    simp only [nonlinearLoop]
    rw [e1, e2, ih (t + 1)]
    simp [List.replicate_succ]

/-- Helper: with both controls constantly equal to the equilibrium control
values and delta state zero, the linear loop stays at (h_e, T_e) at every
recorded step, for any matrices A and B. -/
theorem linearLoop_fixed (q_Cf q_Hf : ℕ → ℝ) (h_e T_e q_C_ev q_H_ev : ℝ)
    (A B : Fin 2 → Fin 2 → ℝ)
    (hC : ∀ s, q_Cf s = q_C_ev) (hH : ∀ s, q_Hf s = q_H_ev) :
    ∀ fuel t, linearLoop q_Cf q_Hf h_e T_e q_C_ev q_H_ev A B t fuel 0 0 =
      (List.replicate fuel h_e, List.replicate fuel T_e) := by
  intro fuel
  induction fuel with
  | zero => intro t; simp [linearLoop]
  | succ n ih =>
    intro t
    simp only [linearLoop, hC t, hH t, sub_self, mulVec2,
      Matrix.cons_val_zero, Matrix.cons_val_one, Matrix.head_cons,
      mul_zero, add_zero, zero_add]
    rw [ih (t + 1)]
    simp [List.replicate_succ]

/-- Helper: the derived equilibrium controls make the temperature increment
numerator vanish at T = T_e (the two heat terms cancel exactly). -/
theorem eq_controls_temp (h_e T_e T_C T_H A_o C_D g : ℝ) :
    q_C_e h_e T_e T_C T_H A_o C_D g * (T_C - T_e) +
      q_H_e h_e T_e T_C T_H A_o C_D g * (T_H - T_e) = 0 := by
  unfold q_C_e q_H_e
  rw [div_mul_eq_mul_div, div_mul_eq_mul_div, div_add_div_same]
  have hz : C_D * A_o * Real.sqrt (2 * g * h_e) * (T_H - T_e) * (T_C - T_e) +
      C_D * A_o * Real.sqrt (2 * g * h_e) * (T_e - T_C) * (T_H - T_e) = 0 := by ring
  rw [hz, zero_div]

/-- Helper: when T_C ≠ T_H the derived equilibrium controls sum to the
equilibrium outflow, so the height increment numerator vanishes at h = h_e. -/
theorem eq_controls_height (h_e T_e T_C T_H A_o C_D g : ℝ) (hne : T_C ≠ T_H) :
    q_C_e h_e T_e T_C T_H A_o C_D g + q_H_e h_e T_e T_C T_H A_o C_D g -
      C_D * A_o * Real.sqrt (2 * g * h_e) = 0 := by
  unfold q_C_e q_H_e
  rw [div_add_div_same]
  have h1 : T_H - T_C ≠ 0 := sub_ne_zero.mpr (Ne.symm hne)
  field_simp
  ring

/-- Helper: with controls returning exactly the derived equilibrium controls
and initial state at the equilibrium point, the nonlinear trajectory is
constant at the equilibrium. -/
theorem nonlinear_simulate_at_equilibrium (q_Cf q_Hf : ℕ → ℝ)
    (h_e T_e T_C T_H A_o A_T C_D g : ℝ) (hne : T_C ≠ T_H)
    (hC : ∀ s, q_Cf s = q_C_e h_e T_e T_C T_H A_o C_D g)
    (hH : ∀ s, q_Hf s = q_H_e h_e T_e T_C T_H A_o C_D g) :
    nonlinear_simulate q_Cf q_Hf h_e T_e T_C T_H A_o A_T C_D g =
      (List.replicate 100 h_e, List.replicate 100 T_e) := by
  unfold nonlinear_simulate
  exact nonlinearLoop_fixed q_Cf q_Hf T_C T_H A_o A_T C_D g h_e T_e
    (fun s => by rw [hC s, hH s]; exact eq_controls_temp h_e T_e T_C T_H A_o C_D g)
    (fun s => by rw [hC s, hH s]; exact eq_controls_height h_e T_e T_C T_H A_o C_D g hne)
    100 0

/-- Helper: with controls returning exactly the derived equilibrium controls
and initial state at the equilibrium point, the linear trajectory is constant
at the equilibrium. -/
theorem linear_simulate_at_equilibrium (q_Cf q_Hf : ℕ → ℝ)
    (h_e T_e T_C T_H A_o A_T C_D g : ℝ)
    (hC : ∀ s, q_Cf s = q_C_e h_e T_e T_C T_H A_o C_D g)
    (hH : ∀ s, q_Hf s = q_H_e h_e T_e T_C T_H A_o C_D g) :
    linear_simulate q_Cf q_Hf h_e T_e h_e T_e T_C T_H A_o A_T C_D g =
      (List.replicate 100 h_e, List.replicate 100 T_e) := by
  unfold linear_simulate
  rw [sub_self, sub_self]
  exact linearLoop_fixed q_Cf q_Hf h_e T_e _ _ _ _ hC hH 100 0

/-- Helper: one-step unfolding of the nonlinear loop. -/
theorem nonlinearLoop_succ (q_Cf q_Hf : ℕ → ℝ) (T_C T_H A_o A_T C_D g : ℝ)
    (t fuel : ℕ) (h_t T_T_t : ℝ) :
    nonlinearLoop q_Cf q_Hf T_C T_H A_o A_T C_D g t (fuel + 1) h_t T_T_t =
      ((h_t + (q_Cf t + q_Hf t - C_D * A_o * Real.sqrt (2 * g * h_t)) / A_T) ::
          (nonlinearLoop q_Cf q_Hf T_C T_H A_o A_T C_D g (t + 1) fuel
            (h_t + (q_Cf t + q_Hf t - C_D * A_o * Real.sqrt (2 * g * h_t)) / A_T)
            (T_T_t + (q_Cf t * (T_C - T_T_t) + q_Hf t * (T_H - T_T_t)) / (h_t * A_T))).1,
        (T_T_t + (q_Cf t * (T_C - T_T_t) + q_Hf t * (T_H - T_T_t)) / (h_t * A_T)) ::
          (nonlinearLoop q_Cf q_Hf T_C T_H A_o A_T C_D g (t + 1) fuel
            (h_t + (q_Cf t + q_Hf t - C_D * A_o * Real.sqrt (2 * g * h_t)) / A_T)
            (T_T_t + (q_Cf t * (T_C - T_T_t) + q_Hf t * (T_H - T_T_t)) / (h_t * A_T))).2) :=
  rfl

/-- Helper: one-step unfolding of the linear loop. -/
theorem linearLoop_succ (q_Cf q_Hf : ℕ → ℝ) (h_e T_e q_C_ev q_H_ev : ℝ)
    (A B : Fin 2 → Fin 2 → ℝ) (t fuel : ℕ) (dh dT : ℝ) :
    linearLoop q_Cf q_Hf h_e T_e q_C_ev q_H_ev A B t (fuel + 1) dh dT =
      ((h_e + (dh + (mulVec2 A ![dh, dT] 0 +
            mulVec2 B ![q_Cf t - q_C_ev, q_Hf t - q_H_ev] 0))) ::
          (linearLoop q_Cf q_Hf h_e T_e q_C_ev q_H_ev A B (t + 1) fuel
            (dh + (mulVec2 A ![dh, dT] 0 + mulVec2 B ![q_Cf t - q_C_ev, q_Hf t - q_H_ev] 0))
            (dT + (mulVec2 A ![dh, dT] 1 + mulVec2 B ![q_Cf t - q_C_ev, q_Hf t - q_H_ev] 1))).1,
        (T_e + (dT + (mulVec2 A ![dh, dT] 1 +
            mulVec2 B ![q_Cf t - q_C_ev, q_Hf t - q_H_ev] 1))) ::
          (linearLoop q_Cf q_Hf h_e T_e q_C_ev q_H_ev A B (t + 1) fuel
            (dh + (mulVec2 A ![dh, dT] 0 + mulVec2 B ![q_Cf t - q_C_ev, q_Hf t - q_H_ev] 0))
            (dT + (mulVec2 A ![dh, dT] 1 + mulVec2 B ![q_Cf t - q_C_ev, q_Hf t - q_H_ev] 1))).2) :=
  rfl

/-- C1: for every equilibrium point (h_e, T_e) with h_e > 0 and T_C ≠ T_H, if
`linear_simulate` is called with initial state h0 = h_e, T0 = T_e and control
functions that return at every step index exactly the derived equilibrium
controls q_C_e and q_H_e, then every one of the 100 recorded (height,
temperature) pairs equals (h_e, T_e): the delta state stays at zero. -/
theorem C1_linear_fixed_point_at_equilibrium (q_Cf q_Hf : ℕ → ℝ)
    (h_e T_e T_C T_H A_o A_T C_D g : ℝ) (_hpos : 0 < h_e) (_hne : T_C ≠ T_H)
    (hC : ∀ t, q_Cf t = q_C_e h_e T_e T_C T_H A_o C_D g)
    (hH : ∀ t, q_Hf t = q_H_e h_e T_e T_C T_H A_o C_D g) :
    linear_simulate q_Cf q_Hf h_e T_e h_e T_e T_C T_H A_o A_T C_D g =
      (List.replicate 100 h_e, List.replicate 100 T_e) :=
  linear_simulate_at_equilibrium q_Cf q_Hf h_e T_e T_C T_H A_o A_T C_D g hC hH

/-- Witness for C1 at the source's default equilibrium (1, 75) and default
constants. -/
theorem C1_linear_fixed_point_at_equilibrium_witness :
    (0 : ℝ) < 1 ∧ (10 : ℝ) ≠ 90 ∧
    linear_simulate (fun _ => q_C_e 1 75 10 90 0.05 0.7 9.8)
        (fun _ => q_H_e 1 75 10 90 0.05 0.7 9.8) 1 75 1 75 10 90 0.05 3 0.7 9.8 =
      (List.replicate 100 1, List.replicate 100 75) :=
  ⟨by norm_num, by norm_num,
    C1_linear_fixed_point_at_equilibrium _ _ 1 75 10 90 0.05 3 0.7 9.8
      (by norm_num) (by norm_num) (fun _ => rfl) (fun _ => rfl)⟩

/-- C2: for every equilibrium point (h_e, T_e) with h_e > 0 and T_C ≠ T_H, if
`nonlinear_simulate` is called with initial state h0 = h_e, T0 = T_e and
control functions that return at every step index exactly the derived
equilibrium controls, then every one of the 100 recorded pairs equals
(h_e, T_e): in exact real arithmetic both per-step increments vanish. -/
theorem C2_nonlinear_fixed_point_at_equilibrium (q_Cf q_Hf : ℕ → ℝ)
    (h_e T_e T_C T_H A_o A_T C_D g : ℝ) (_hpos : 0 < h_e) (hne : T_C ≠ T_H)
    (hC : ∀ t, q_Cf t = q_C_e h_e T_e T_C T_H A_o C_D g)
    (hH : ∀ t, q_Hf t = q_H_e h_e T_e T_C T_H A_o C_D g) :
    nonlinear_simulate q_Cf q_Hf h_e T_e T_C T_H A_o A_T C_D g =
      (List.replicate 100 h_e, List.replicate 100 T_e) :=
  nonlinear_simulate_at_equilibrium q_Cf q_Hf h_e T_e T_C T_H A_o A_T C_D g hne hC hH

/-- Witness for C2 at the source's default equilibrium (1, 75) and default
constants. -/
theorem C2_nonlinear_fixed_point_at_equilibrium_witness :
    (0 : ℝ) < 1 ∧ (10 : ℝ) ≠ 90 ∧
    nonlinear_simulate (fun _ => q_C_e 1 75 10 90 0.05 0.7 9.8)
        (fun _ => q_H_e 1 75 10 90 0.05 0.7 9.8) 1 75 10 90 0.05 3 0.7 9.8 =
      (List.replicate 100 1, List.replicate 100 75) :=
  ⟨by norm_num, by norm_num,
    C2_nonlinear_fixed_point_at_equilibrium _ _ 1 75 10 90 0.05 3 0.7 9.8
      (by norm_num) (by norm_num) (fun _ => rfl) (fun _ => rfl)⟩

/-- Counterexample for C3: with the source's rounded constant controls 0.029
and 0.126 and initial state (1, 75), the very first recorded temperature of
`nonlinear_simulate` is 75 + 0.005/3, not 75 — the trajectories are not an
exact fixed point, because 0.029 and 0.126 are only rounded approximations of
the true equilibrium controls (which involve √19.6 and are irrational). -/
theorem C3_rounded_controls_not_exact_fixed_point :
    (nonlinear_simulate q_C_eq q_H_eq 1 75 10 90 0.05 3 0.7 9.8).2.head? ≠
      some (75 : ℝ) := by
  unfold nonlinear_simulate
  rw [show (100 : ℕ) = 99 + 1 from rfl, nonlinearLoop_succ]
  simp only [List.head?_cons, q_C_eq, q_H_eq, Option.some.injEq, ne_eq]
  norm_num

/-- Amended C3: with constant controls equal to the exact equilibrium controls
for (h_e, T_e) = (1, 75) — of which the source constants 0.029 and 0.126 are
rounded approximations — and initial state (1, 75), both simulators return
trajectories constant at (1, 75) at every one of the 100 steps. -/
theorem C3_exact_equilibrium_controls_fixed_point :
    nonlinear_simulate (fun _ => q_C_e 1 75 10 90 0.05 0.7 9.8)
        (fun _ => q_H_e 1 75 10 90 0.05 0.7 9.8) 1 75 10 90 0.05 3 0.7 9.8 =
      (List.replicate 100 1, List.replicate 100 75) ∧
    linear_simulate (fun _ => q_C_e 1 75 10 90 0.05 0.7 9.8)
        (fun _ => q_H_e 1 75 10 90 0.05 0.7 9.8) 1 75 1 75 10 90 0.05 3 0.7 9.8 =
      (List.replicate 100 1, List.replicate 100 75) :=
  ⟨nonlinear_simulate_at_equilibrium _ _ 1 75 10 90 0.05 3 0.7 9.8
      (by norm_num) (fun _ => rfl) (fun _ => rfl),
    linear_simulate_at_equilibrium _ _ 1 75 10 90 0.05 3 0.7 9.8
      (fun _ => rfl) (fun _ => rfl)⟩

/-- C4: each iteration of the nonlinear simulator records exactly the
temperature T_t + (q_C(t)·(T_C − T_t) + q_H(t)·(T_H − T_t)) / (h_t · A_T) and
the height h_t + (q_C(t) + q_H(t) − C_D·A_o·√(2·g·h_t)) / A_T, where h_t and
T_t are the pre-step values: the temperature update uses the height from
before this step's height update, and the height update uses the pre-update
height under the square root; the loop then continues from those two new
values. -/
theorem C4_nonlinear_step_uses_prestep_height (q_Cf q_Hf : ℕ → ℝ)
    (T_C T_H A_o A_T C_D g : ℝ) (t fuel : ℕ) (h_t T_t : ℝ) :
    nonlinearLoop q_Cf q_Hf T_C T_H A_o A_T C_D g t (fuel + 1) h_t T_t =
      ((h_t + (q_Cf t + q_Hf t - C_D * A_o * Real.sqrt (2 * g * h_t)) / A_T) ::
          (nonlinearLoop q_Cf q_Hf T_C T_H A_o A_T C_D g (t + 1) fuel
            (h_t + (q_Cf t + q_Hf t - C_D * A_o * Real.sqrt (2 * g * h_t)) / A_T)
            (T_t + (q_Cf t * (T_C - T_t) + q_Hf t * (T_H - T_t)) / (h_t * A_T))).1,
        (T_t + (q_Cf t * (T_C - T_t) + q_Hf t * (T_H - T_t)) / (h_t * A_T)) ::
          (nonlinearLoop q_Cf q_Hf T_C T_H A_o A_T C_D g (t + 1) fuel
            (h_t + (q_Cf t + q_Hf t - C_D * A_o * Real.sqrt (2 * g * h_t)) / A_T)
            (T_t + (q_Cf t * (T_C - T_t) + q_Hf t * (T_H - T_t)) / (h_t * A_T))).2) :=
  rfl

/-- C5: the linearizer inside `linear_simulate` computes the equilibrium
controls exactly as q_C_e = C_D·A_o·√(2·g·h_e)·(T_H − T_e)/(T_H − T_C) and
q_H_e = C_D·A_o·√(2·g·h_e)·(T_e − T_C)/(T_H − T_C), pure functions of the
equilibrium point and the physical constants. -/
theorem C5_equilibrium_control_formulas (h_e T_e T_C T_H A_o C_D g : ℝ)
    (_hne : T_C ≠ T_H) :
    q_C_e h_e T_e T_C T_H A_o C_D g =
      C_D * A_o * Real.sqrt (2 * g * h_e) * (T_H - T_e) / (T_H - T_C) ∧
    q_H_e h_e T_e T_C T_H A_o C_D g =
      C_D * A_o * Real.sqrt (2 * g * h_e) * (T_e - T_C) / (T_H - T_C) :=
  ⟨rfl, rfl⟩

/-- Witness for C5 at the default equilibrium point and constants. -/
theorem C5_equilibrium_control_formulas_witness :
    (10 : ℝ) ≠ 90 ∧
    (q_C_e 1 75 10 90 0.05 0.7 9.8 =
        0.7 * 0.05 * Real.sqrt (2 * 9.8 * 1) * (90 - 75) / (90 - 10) ∧
      q_H_e 1 75 10 90 0.05 0.7 9.8 =
        0.7 * 0.05 * Real.sqrt (2 * 9.8 * 1) * (75 - 10) / (90 - 10)) :=
  ⟨by norm_num, C5_equilibrium_control_formulas 1 75 10 90 0.05 0.7 9.8 (by norm_num)⟩

/-- C6: for every equilibrium point with h_e > 0, the Jacobian matrices
computed inside `linear_simulate` have exactly the entries
A[0][0] = −g·C_D·A_o/(A_T·√(2·g·h_e)), A[0][1] = 0,
A[1][0] = −(q_C_e·(T_C−T_e) + q_H_e·(T_H−T_e))/(h_e²·A_T),
A[1][1] = −(q_C_e+q_H_e)/(h_e·A_T), B[0][0] = B[0][1] = 1/A_T,
B[1][0] = (T_C−T_e)/(h_e·A_T) and B[1][1] = (T_H−T_e)/(h_e·A_T). -/
theorem C6_jacobian_entries (h_e T_e T_C T_H A_o A_T C_D g : ℝ)
    (_hpos : 0 < h_e) :
    Amat h_e T_e T_C T_H A_o A_T C_D g 0 0 =
        -g * C_D * A_o / (A_T * Real.sqrt (2 * g * h_e)) ∧
    Amat h_e T_e T_C T_H A_o A_T C_D g 0 1 = 0 ∧
    Amat h_e T_e T_C T_H A_o A_T C_D g 1 0 =
        -(q_C_e h_e T_e T_C T_H A_o C_D g * (T_C - T_e) +
            q_H_e h_e T_e T_C T_H A_o C_D g * (T_H - T_e)) / (h_e ^ 2 * A_T) ∧
    Amat h_e T_e T_C T_H A_o A_T C_D g 1 1 =
        -(q_C_e h_e T_e T_C T_H A_o C_D g + q_H_e h_e T_e T_C T_H A_o C_D g) /
          (h_e * A_T) ∧
    Bmat h_e T_e T_C T_H A_T 0 0 = 1 / A_T ∧
    Bmat h_e T_e T_C T_H A_T 0 1 = 1 / A_T ∧
    Bmat h_e T_e T_C T_H A_T 1 0 = (T_C - T_e) / (h_e * A_T) ∧
    Bmat h_e T_e T_C T_H A_T 1 1 = (T_H - T_e) / (h_e * A_T) := by
  refine ⟨rfl, rfl, ?_, rfl, rfl, rfl, rfl, rfl⟩
  rw [pow_two]
  rfl

/-- Witness for C6 at the default equilibrium point and constants. -/
theorem C6_jacobian_entries_witness :
    (0 : ℝ) < 1 ∧
    (Amat 1 75 10 90 0.05 3 0.7 9.8 0 0 =
        -9.8 * 0.7 * 0.05 / (3 * Real.sqrt (2 * 9.8 * 1)) ∧
      Amat 1 75 10 90 0.05 3 0.7 9.8 0 1 = 0 ∧
      Amat 1 75 10 90 0.05 3 0.7 9.8 1 0 =
        -(q_C_e 1 75 10 90 0.05 0.7 9.8 * (10 - 75) +
            q_H_e 1 75 10 90 0.05 0.7 9.8 * (90 - 75)) / ((1 : ℝ) ^ 2 * 3) ∧
      Amat 1 75 10 90 0.05 3 0.7 9.8 1 1 =
        -(q_C_e 1 75 10 90 0.05 0.7 9.8 + q_H_e 1 75 10 90 0.05 0.7 9.8) / (1 * 3) ∧
      Bmat 1 75 10 90 3 0 0 = 1 / 3 ∧
      Bmat 1 75 10 90 3 0 1 = 1 / 3 ∧
      Bmat 1 75 10 90 3 1 0 = (10 - 75) / (1 * 3) ∧
      Bmat 1 75 10 90 3 1 1 = (90 - 75) / (1 * 3)) :=
  ⟨by norm_num, C6_jacobian_entries 1 75 10 90 0.05 3 0.7 9.8 (by norm_num)⟩

/-- C7: each iteration of the linear simulator updates the delta state by
δx_next = (I + A)·δx + B·δu with δu = (q_C(t) − q_C_e, q_H(t) − q_H_e), then
records h_e + δx_next[0] as the step's height and T_e + δx_next[1] as the
step's temperature, and continues the loop from δx_next. -/
theorem C7_linear_step_shape (q_Cf q_Hf : ℕ → ℝ) (h_e T_e q_C_ev q_H_ev : ℝ)
    (A B : Fin 2 → Fin 2 → ℝ) (t fuel : ℕ) (dh dT : ℝ) :
    linearLoop q_Cf q_Hf h_e T_e q_C_ev q_H_ev A B t (fuel + 1) dh dT =
      ((h_e + ((1 + A 0 0) * dh + A 0 1 * dT +
          (B 0 0 * (q_Cf t - q_C_ev) + B 0 1 * (q_Hf t - q_H_ev)))) ::
        (linearLoop q_Cf q_Hf h_e T_e q_C_ev q_H_ev A B (t + 1) fuel
          ((1 + A 0 0) * dh + A 0 1 * dT +
            (B 0 0 * (q_Cf t - q_C_ev) + B 0 1 * (q_Hf t - q_H_ev)))
          (A 1 0 * dh + (1 + A 1 1) * dT +
            (B 1 0 * (q_Cf t - q_C_ev) + B 1 1 * (q_Hf t - q_H_ev)))).1,
       (T_e + (A 1 0 * dh + (1 + A 1 1) * dT +
          (B 1 0 * (q_Cf t - q_C_ev) + B 1 1 * (q_Hf t - q_H_ev)))) ::
        (linearLoop q_Cf q_Hf h_e T_e q_C_ev q_H_ev A B (t + 1) fuel
          ((1 + A 0 0) * dh + A 0 1 * dT +
            (B 0 0 * (q_Cf t - q_C_ev) + B 0 1 * (q_Hf t - q_H_ev)))
          (A 1 0 * dh + (1 + A 1 1) * dT +
            (B 1 0 * (q_Cf t - q_C_ev) + B 1 1 * (q_Hf t - q_H_ev)))).2) := by
  rw [linearLoop_succ]
  have e0 : dh + (mulVec2 A ![dh, dT] 0 +
      mulVec2 B ![q_Cf t - q_C_ev, q_Hf t - q_H_ev] 0) =
      (1 + A 0 0) * dh + A 0 1 * dT +
        (B 0 0 * (q_Cf t - q_C_ev) + B 0 1 * (q_Hf t - q_H_ev)) := by
    simp only [mulVec2, Matrix.cons_val_zero, Matrix.cons_val_one, Matrix.head_cons]
    ring
  have e1 : dT + (mulVec2 A ![dh, dT] 1 +
      mulVec2 B ![q_Cf t - q_C_ev, q_Hf t - q_H_ev] 1) =
      A 1 0 * dh + (1 + A 1 1) * dT +
        (B 1 0 * (q_Cf t - q_C_ev) + B 1 1 * (q_Hf t - q_H_ev)) := by
    simp only [mulVec2, Matrix.cons_val_zero, Matrix.cons_val_one, Matrix.head_cons]
    ring
  rw [e0, e1]

/-- C8: for every choice of control functions, initial state, equilibrium
point and constants, both simulators return two trajectories of length
exactly 100, and index 0 holds the state after the first integration step
(computed from h0, T0), not the initial values themselves. -/
theorem C8_trajectory_length_and_first_index (q_Cf q_Hf : ℕ → ℝ)
    (h0 T0 h_e T_e T_C T_H A_o A_T C_D g : ℝ) :
    ((nonlinear_simulate q_Cf q_Hf h0 T0 T_C T_H A_o A_T C_D g).1.length = 100 ∧
      (nonlinear_simulate q_Cf q_Hf h0 T0 T_C T_H A_o A_T C_D g).2.length = 100 ∧
      (linear_simulate q_Cf q_Hf h0 T0 h_e T_e T_C T_H A_o A_T C_D g).1.length = 100 ∧
      (linear_simulate q_Cf q_Hf h0 T0 h_e T_e T_C T_H A_o A_T C_D g).2.length = 100) ∧
    (nonlinear_simulate q_Cf q_Hf h0 T0 T_C T_H A_o A_T C_D g).1.head? =
      some (h0 + (q_Cf 0 + q_Hf 0 - C_D * A_o * Real.sqrt (2 * g * h0)) / A_T) ∧
    (nonlinear_simulate q_Cf q_Hf h0 T0 T_C T_H A_o A_T C_D g).2.head? =
      some (T0 + (q_Cf 0 * (T_C - T0) + q_Hf 0 * (T_H - T0)) / (h0 * A_T)) ∧
    (linear_simulate q_Cf q_Hf h0 T0 h_e T_e T_C T_H A_o A_T C_D g).1.head? =
      some (h_e + ((h0 - h_e) +
        (mulVec2 (Amat h_e T_e T_C T_H A_o A_T C_D g) ![h0 - h_e, T0 - T_e] 0 +
          mulVec2 (Bmat h_e T_e T_C T_H A_T)
            ![q_Cf 0 - q_C_e h_e T_e T_C T_H A_o C_D g,
              q_Hf 0 - q_H_e h_e T_e T_C T_H A_o C_D g] 0))) ∧
    (linear_simulate q_Cf q_Hf h0 T0 h_e T_e T_C T_H A_o A_T C_D g).2.head? =
      some (T_e + ((T0 - T_e) +
        (mulVec2 (Amat h_e T_e T_C T_H A_o A_T C_D g) ![h0 - h_e, T0 - T_e] 1 +
          mulVec2 (Bmat h_e T_e T_C T_H A_T)
            ![q_Cf 0 - q_C_e h_e T_e T_C T_H A_o C_D g,
              q_Hf 0 - q_H_e h_e T_e T_C T_H A_o C_D g] 1))) := by
  refine ⟨⟨?_, ?_, ?_, ?_⟩, ?_, ?_, ?_, ?_⟩
  · exact (nonlinearLoop_length q_Cf q_Hf T_C T_H A_o A_T C_D g 100 0 h0 T0).1
  · exact (nonlinearLoop_length q_Cf q_Hf T_C T_H A_o A_T C_D g 100 0 h0 T0).2
  · exact (linearLoop_length q_Cf q_Hf h_e T_e _ _ _ _ 100 0 _ _).1
  · exact (linearLoop_length q_Cf q_Hf h_e T_e _ _ _ _ 100 0 _ _).2
  · unfold nonlinear_simulate
    rw [show (100 : ℕ) = 99 + 1 from rfl, nonlinearLoop_succ]
    rfl
  · unfold nonlinear_simulate
    rw [show (100 : ℕ) = 99 + 1 from rfl, nonlinearLoop_succ]
    rfl
  · unfold linear_simulate
    rw [show (100 : ℕ) = 99 + 1 from rfl, linearLoop_succ]
    rfl
  · unfold linear_simulate
    rw [show (100 : ℕ) = 99 + 1 from rfl, linearLoop_succ]
    rfl

/-- Helper: the nonlinear height trajectory depends on the two controls only
through their sum and does not depend on the temperature state or the source
temperatures. -/
theorem nonlinearLoop_height_ext (q1C q1H q2C q2H : ℕ → ℝ)
    (T_C1 T_H1 T_C2 T_H2 A_o A_T C_D g : ℝ)
    (hsum : ∀ t, q1C t + q1H t = q2C t + q2H t) :
    ∀ fuel t h T1 T2,
      (nonlinearLoop q1C q1H T_C1 T_H1 A_o A_T C_D g t fuel h T1).1 =
      (nonlinearLoop q2C q2H T_C2 T_H2 A_o A_T C_D g t fuel h T2).1 := by
  intro fuel
  induction fuel with
  | zero => intro t h T1 T2; simp [nonlinearLoop]
  | succ n ih =>
    intro t h T1 T2
    rw [nonlinearLoop_succ, nonlinearLoop_succ, hsum t]
    exact congrArg (List.cons _) (ih (t + 1) _ _ _)

/-- Helper: when A[0][1] = 0 and the two entries of the first row of B agree,
the linear height trajectory depends on the two controls only through their
sum and does not depend on the delta temperature. -/
theorem linearLoop_height_ext (q1C q1H q2C q2H : ℕ → ℝ)
    (h_e T_e q_C_ev q_H_ev : ℝ) (A B : Fin 2 → Fin 2 → ℝ)
    (hA01 : A 0 1 = 0) (hB : B 0 0 = B 0 1)
    (hsum : ∀ t, q1C t + q1H t = q2C t + q2H t) :
    ∀ fuel t dh dT1 dT2,
      (linearLoop q1C q1H h_e T_e q_C_ev q_H_ev A B t fuel dh dT1).1 =
      (linearLoop q2C q2H h_e T_e q_C_ev q_H_ev A B t fuel dh dT2).1 := by
  intro fuel
  induction fuel with
  | zero => intro t dh dT1 dT2; simp [linearLoop]
  | succ n ih =>
    intro t dh dT1 dT2
    rw [linearLoop_succ, linearLoop_succ]
    have e1 : mulVec2 A ![dh, dT1] 0 = mulVec2 A ![dh, dT2] 0 := by
      simp only [mulVec2, Matrix.cons_val_zero, Matrix.cons_val_one, Matrix.head_cons,
        hA01, zero_mul]
    have e2 : mulVec2 B ![q1C t - q_C_ev, q1H t - q_H_ev] 0 =
        mulVec2 B ![q2C t - q_C_ev, q2H t - q_H_ev] 0 := by
      simp only [mulVec2, Matrix.cons_val_zero, Matrix.cons_val_one, Matrix.head_cons,
        ← hB]
      have hs : q1C t - q_C_ev + (q1H t - q_H_ev) =
          q2C t - q_C_ev + (q2H t - q_H_ev) := by
        have := hsum t
        linarith
      calc B 0 0 * (q1C t - q_C_ev) + B 0 0 * (q1H t - q_H_ev)
          = B 0 0 * (q1C t - q_C_ev + (q1H t - q_H_ev)) := by ring
        _ = B 0 0 * (q2C t - q_C_ev + (q2H t - q_H_ev)) := by rw [hs]
        _ = B 0 0 * (q2C t - q_C_ev) + B 0 0 * (q2H t - q_H_ev) := by ring
    rw [e1, e2]
    exact congrArg (List.cons _) (ih (t + 1) _ _ _)

/-- C9: swapping the two control-function arguments (hot in the cold position
and vice versa, all other arguments unchanged) leaves the returned height
trajectory of both simulators identical: the height dynamics see the controls
only through their sum. -/
theorem C9_swap_controls_preserves_heights (q_Cf q_Hf : ℕ → ℝ)
    (h0 T0 h_e T_e T_C T_H A_o A_T C_D g : ℝ) :
    (nonlinear_simulate q_Hf q_Cf h0 T0 T_C T_H A_o A_T C_D g).1 =
      (nonlinear_simulate q_Cf q_Hf h0 T0 T_C T_H A_o A_T C_D g).1 ∧
    (linear_simulate q_Hf q_Cf h0 T0 h_e T_e T_C T_H A_o A_T C_D g).1 =
      (linear_simulate q_Cf q_Hf h0 T0 h_e T_e T_C T_H A_o A_T C_D g).1 := by
  constructor
  · exact nonlinearLoop_height_ext q_Hf q_Cf q_Cf q_Hf T_C T_H T_C T_H A_o A_T C_D g
      (fun t => add_comm _ _) 100 0 h0 T0 T0
  · exact linearLoop_height_ext q_Hf q_Cf q_Cf q_Hf h_e T_e
      (q_C_e h_e T_e T_C T_H A_o C_D g) (q_H_e h_e T_e T_C T_H A_o C_D g)
      (Amat h_e T_e T_C T_H A_o A_T C_D g) (Bmat h_e T_e T_C T_H A_T)
      (by simp [Amat]) (by simp [Bmat]) (fun t => add_comm _ _) 100 0 _ _ _

/-- C10: the height trajectory returned by `nonlinear_simulate` does not
depend on the temperature inputs: two calls differing only in T0, T_C and
T_H return identical height trajectories. -/
theorem C10_nonlinear_heights_ignore_temperatures (q_Cf q_Hf : ℕ → ℝ)
    (h0 T0 T0b T_C T_Cb T_H T_Hb A_o A_T C_D g : ℝ) :
    (nonlinear_simulate q_Cf q_Hf h0 T0 T_C T_H A_o A_T C_D g).1 =
      (nonlinear_simulate q_Cf q_Hf h0 T0b T_Cb T_Hb A_o A_T C_D g).1 :=
  nonlinearLoop_height_ext q_Cf q_Hf q_Cf q_Hf T_C T_H T_Cb T_Hb A_o A_T C_D g
    (fun _ => rfl) 100 0 h0 T0 T0b
